import Mathlib

/-!
Shallow embedding of `custom_components/tahoma/climate.py` (class
`TahomaClimate`) from the ha-tahoma repository.

Temperatures are modelled as rationals (`ℚ`).  The entity's mutable
fields become a structure that every method threads explicitly; each
method returns the updated entity together with the list of vendor
commands it emitted through `_apply_action` (in emission order).  A
Python `dict[key]` access that can raise `KeyError` is modelled with
`Except String`; methods whose call chain contains such an access
return `Except String (TahomaClimate × List Cmd)`.
-/

namespace Tahoma

/-! ### String constants

The `HVAC_MODE_*`, `PRESET_*` (host vocabulary), `STATE_ON/OFF/UNKNOWN`
and `CURRENT_HVAC_*` constants are imported by `climate.py` from the
host framework (Home Assistant); their standard string values are used
here. -/

def HVAC_MODE_AUTO : String := "auto"

def HVAC_MODE_HEAT : String := "heat"

def HVAC_MODE_OFF : String := "off"

def PRESET_AWAY : String := "away"

def PRESET_COMFORT : String := "comfort"

def PRESET_ECO : String := "eco"

def PRESET_HOME : String := "home"

def PRESET_NONE : String := "none"

def PRESET_SLEEP : String := "sleep"

def STATE_OFF : String := "off"

def STATE_ON : String := "on"

def STATE_UNKNOWN : String := "unknown"

def CURRENT_HVAC_HEAT : String := "heating"

def CURRENT_HVAC_IDLE : String := "idle"

def CURRENT_HVAC_OFF : String := "off"

/-- Widget discriminator `W_ST` (climate.py line 61). -/
def W_ST : String := "SomfyThermostat"

/-- Widget discriminator `W_AEH` (climate.py line 62). -/
def W_AEH : String := "AtlanticElectricalHeater"

def PRESET_FREEZE : String := "freeze"

def PRESET_FROST_PROTECTION : String := "frostprotection"

def PRESET_OFF : String := "off"

def STATE_DEROGATION_FURTHER_NOTICE : String := "further_notice"

def STATE_DEROGATION_NEXT_MODE : String := "next_mode"

def STATE_DEROGATION_DATE : String := "date"

def STATE_PRESET_AT_HOME : String := "atHomeMode"

def STATE_PRESET_AWAY : String := "awayMode"

def STATE_PRESET_FREEZE : String := "freezeMode"

def STATE_PRESET_MANUAL : String := "manualMode"

def STATE_PRESET_SLEEPING_MODE : String := "sleepingMode"

/-- Modelled from the spec: the command-name constants are imported by
`climate.py` from `.const`, a module of this repository that is not in
the sources provided.  The spec describes the commands only by role
(set override / exit override / set mode temperature / state refresh /
off / set heating level), so they are modelled as distinct opaque
string labels; nothing below depends on their exact spelling. -/
def COMMAND_EXIT_DEROGATION : String := "exitDerogation"

/-- Modelled from the spec: see `COMMAND_EXIT_DEROGATION`. -/
def COMMAND_SET_DEROGATION : String := "setDerogation"

/-- Modelled from the spec: see `COMMAND_EXIT_DEROGATION`. -/
def COMMAND_REFRESH_STATE : String := "refreshState"

/-- Modelled from the spec: see `COMMAND_EXIT_DEROGATION`. -/
def COMMAND_OFF : String := "offCommand"

/-- Modelled from the spec: see `COMMAND_EXIT_DEROGATION`. -/
def COMMAND_SET_HEATING_LEVEL : String := "setHeatingLevel"

/-- Modelled from the spec: see `COMMAND_EXIT_DEROGATION`. -/
def COMMAND_SET_MODE_TEMPERATURE : String := "setModeTemperature"

/-! ### Lookup tables (climate.py lines 79-109) -/

/-- `MAP_HVAC_MODE` (climate.py lines 79-85), as an association list in
source order. -/
def MAP_HVAC_MODE : List (String × String) :=
  [(STATE_DEROGATION_DATE, HVAC_MODE_AUTO),
   (STATE_DEROGATION_NEXT_MODE, HVAC_MODE_HEAT),
   (STATE_DEROGATION_FURTHER_NOTICE, HVAC_MODE_HEAT),
   (STATE_ON, HVAC_MODE_HEAT),
   (STATE_OFF, HVAC_MODE_OFF)]

/-- `MAP_PRESET` (climate.py lines 86-96). -/
def MAP_PRESET : List (String × String) :=
  [(STATE_PRESET_AT_HOME, PRESET_HOME),
   (STATE_PRESET_AWAY, PRESET_AWAY),
   (STATE_PRESET_FREEZE, PRESET_FREEZE),
   (STATE_PRESET_MANUAL, PRESET_NONE),
   (STATE_PRESET_SLEEPING_MODE, PRESET_SLEEP),
   (PRESET_OFF, PRESET_NONE),
   (PRESET_FROST_PROTECTION, PRESET_FREEZE),
   (PRESET_ECO, PRESET_ECO),
   (PRESET_COMFORT, PRESET_COMFORT)]

/-- `ST_MAP_PRESET_REVERSE` (climate.py lines 97-103). -/
def ST_MAP_PRESET_REVERSE : List (String × String) :=
  [(PRESET_HOME, STATE_PRESET_AT_HOME),
   (PRESET_AWAY, STATE_PRESET_AWAY),
   (PRESET_FREEZE, STATE_PRESET_FREEZE),
   (PRESET_NONE, STATE_PRESET_MANUAL),
   (PRESET_SLEEP, STATE_PRESET_SLEEPING_MODE)]

/-- `AEH_MAP_PRESET_REVERSE` (climate.py lines 104-109). -/
def AEH_MAP_PRESET_REVERSE : List (String × String) :=
  [(PRESET_NONE, PRESET_OFF),
   (PRESET_FREEZE, PRESET_FROST_PROTECTION),
   (PRESET_ECO, PRESET_ECO),
   (PRESET_COMFORT, PRESET_COMFORT)]

/-- Python `d[k]` on one of the tables above: the value when the key is
present, a `KeyError` otherwise. -/
def dget (d : List (String × String)) (k : String) : Except String String :=
  match d.find? (fun p => p.1 = k) with
  | some p => .ok p.2
  | none => .error ("KeyError: " ++ k)

/-! ### Data model -/

/-- One argument of an `_apply_action` call: a string or a temperature. -/
inductive Arg where
  | s (v : String)
  | q (v : ℚ)
  deriving DecidableEq, Repr

/-- One emitted vendor command: command name and arguments, as passed to
`_apply_action` (climate.py lines 316-320; the wait-for-execution loop
is vendor-client glue and carries no state). -/
abbrev Cmd := String × List Arg

/-- The mutable fields of a `TahomaClimate` entity (climate.py
`__init__`, lines 153-205).  `_cold_tolerance` and `_hot_tolerance`
are set unconditionally to `0.3` in `__init__` and never written
again; they are modelled as the module constants `cold_tolerance` /
`hot_tolerance` below. -/
structure TahomaClimate where
  widget : String
  temp_sensor_entity_id : Option String
  current_temperature : ℚ
  current_hvac_modes : String
  hvac_modes : List String
  hvac_mode : String
  preset_mode : String
  preset_modes : List String
  target_temp : ℚ
  stored_target_temp : ℚ
  deriving DecidableEq, Repr

/-- `self._cold_tolerance = 0.3` (climate.py line 156). -/
def cold_tolerance : ℚ := 3 / 10

/-- `self._hot_tolerance = 0.3` (climate.py line 157). -/
def hot_tolerance : ℚ := 3 / 10

/-- The vendor device's `active_states`, restricted to the state keys
`climate.py` reads, one typed field per key (the key-name constants
live in the missing `.const` module; the field names follow the roles
the spec gives them): `derogationType` is `ST_DEROGATION_TYPE_STATE`,
`heatingMode` is `ST_HEATING_MODE_STATE`, `derogationHeatingMode` is
`ST_DEROGATION_HEATING_MODE_STATE`, `targetTemperature` is
`CORE_TARGET_TEMPERATURE_STATE`, `derogatedTargetTemperature` is
`CORE_DEROGATED_TARGET_TEMPERATURE_STATE`, `onOff` is
`CORE_ON_OFF_STATE`, `targetHeatingLevel` is
`IO_TARGET_HEATING_LEVEL_STATE`. -/
structure ActiveStates where
  derogationType : String
  heatingMode : String
  derogationHeatingMode : String
  targetTemperature : ℚ
  derogatedTargetTemperature : ℚ
  onOff : String
  targetHeatingLevel : String
  deriving DecidableEq, Repr

/-! ### Parsing a sensor reading -/

/-- Value of a decimal digit string read left to right. -/
def natOfDigits (l : List Char) : Nat :=
  l.foldl (fun n c => 10 * n + (c.toNat - 48)) 0

/-- Modelled from the spec: Python's builtin `float(str)` (a language
builtin, not repository code), restricted to plain decimal literals:
an optional sign, then digits with at most one decimal point and at
least one digit; anything else raises `ValueError`, modelled as
`none`. -/
def parseFloat (s : String) : Option ℚ :=
  let signed : Bool × List Char :=
    match s.data with
    | '-' :: rest => (true, rest)
    | '+' :: rest => (false, rest)
    | l => (false, l)
  let intPart := signed.2.takeWhile Char.isDigit
  let rest := signed.2.dropWhile Char.isDigit
  let value : Option ℚ :=
    match rest with
    | [] =>
      if intPart.isEmpty then none
      else some (mkRat (natOfDigits intPart) 1)
    | '.' :: frac =>
      if frac.all Char.isDigit && !(intPart.isEmpty && frac.isEmpty) then
        some (mkRat (natOfDigits intPart * 10 ^ frac.length +
          natOfDigits frac) (10 ^ frac.length))
      else none
    | _ => none
  match value with
  | none => none
  | some v => some (if signed.1 then -v else v)

/-- `update_temp` (climate.py lines 241-255), applied to the associated
sensor state's `state` string.  If no sensor entity is configured the
method returns at once.  `float` raising `ValueError` is caught and
logged, so the previous cached temperature survives; the fetch of the
state object from the host (`hass.states.get`) is host glue and is
modelled by passing the state string in. -/
def update_temp (e : TahomaClimate) (stateStr : String) : TahomaClimate :=
  if e.temp_sensor_entity_id = none then e
  else if stateStr = STATE_UNKNOWN then { e with current_temperature := 0 }
  else
    match parseFloat stateStr with
    | some v => { e with current_temperature := v }
    | none => e

/-! ### Heater control (climate.py lines 405-432) -/

/-- `turn_off` (climate.py lines 416-423). -/
def turn_off (e : TahomaClimate) : Except String (TahomaClimate × List Cmd) :=
  if e.widget = W_AEH then
    if e.preset_mode = PRESET_NONE then .ok (e, [])
    else
      match dget AEH_MAP_PRESET_REVERSE PRESET_NONE with
      | .error msg => .error msg
      | .ok lvl => .ok (e, [(COMMAND_SET_HEATING_LEVEL, [Arg.s lvl])])
  else .ok (e, [])

/-- `turn_on` (climate.py lines 425-432). -/
def turn_on (e : TahomaClimate) : Except String (TahomaClimate × List Cmd) :=
  if e.widget = W_AEH then
    let e1 := if e.preset_mode = PRESET_NONE
      then { e with preset_mode := PRESET_COMFORT } else e
    match dget AEH_MAP_PRESET_REVERSE e1.preset_mode with
    | .error msg => .error msg
    | .ok lvl => .ok (e1, [(COMMAND_SET_HEATING_LEVEL, [Arg.s lvl])])
  else .ok (e, [])

/-- `_control_heating` (climate.py lines 405-414): nothing happens on a
zero (sentinel) cached temperature; otherwise both band tests run and
the corresponding `turn_off` / `turn_on` calls execute in source
order. -/
def control_heating (e : TahomaClimate) :
    Except String (TahomaClimate × List Cmd) :=
  if e.current_temperature = 0 then .ok (e, [])
  else
    let too_cold := e.target_temp - e.current_temperature ≥ cold_tolerance
    let too_hot := e.current_temperature - e.target_temp ≥ hot_tolerance
    match (if too_hot then turn_off e else .ok (e, [])) with
    | .error msg => .error msg
    | .ok (e1, c1) =>
      match (if too_cold then turn_on e1 else .ok (e1, [])) with
      | .error msg => .error msg
      | .ok (e2, c2) => .ok (e2, c1 ++ c2)

/-! ### Mode / preset / temperature setters -/

/-- `set_hvac_mode` (climate.py lines 322-347).  An unchanged mode
returns at once.  The two widget tests are sequential `if` statements
in the source, so the state is threaded through both; the trailing
`return` of the heater branch ends the method. -/
def set_hvac_mode (e : TahomaClimate) (hvac_mode : String) :
    Except String (TahomaClimate × List Cmd) :=
  if hvac_mode = e.hvac_mode then .ok (e, [])
  else
    let st :=
      if e.widget = W_ST then
        if hvac_mode = HVAC_MODE_AUTO then
          ({ e with stored_target_temp := e.target_temp },
           [(COMMAND_EXIT_DEROGATION, []), (COMMAND_REFRESH_STATE, [])])
        else if hvac_mode = HVAC_MODE_HEAT then
          ({ e with target_temp := e.stored_target_temp,
                    preset_mode := PRESET_NONE },
           [(COMMAND_SET_DEROGATION,
             [Arg.q e.stored_target_temp,
              Arg.s STATE_DEROGATION_FURTHER_NOTICE]),
            (COMMAND_REFRESH_STATE, [])])
        else (e, [(COMMAND_REFRESH_STATE, [])])
      else (e, [])
    if st.1.widget = W_AEH then
      let c2 : List Cmd :=
        if hvac_mode = HVAC_MODE_OFF then [(COMMAND_OFF, [])] else []
      let lvl3 : Except String (List Cmd) :=
        if hvac_mode = HVAC_MODE_HEAT then
          match dget AEH_MAP_PRESET_REVERSE st.1.preset_mode with
          | .error msg => .error msg
          | .ok lvl => .ok [(COMMAND_SET_HEATING_LEVEL, [Arg.s lvl])]
        else .ok []
      match lvl3 with
      | .error msg => .error msg
      | .ok c3 =>
        match control_heating st.1 with
        | .error msg => .error msg
        | .ok (e2, c4) => .ok (e2, st.2 ++ c2 ++ c3 ++ c4)
    else .ok st

/-- `set_temperature` (climate.py lines 379-403), applied to the
requested temperature (`kwargs.get(ATTR_TEMPERATURE)`; `none` when the
key is absent).  For the thermostat: a request below 15 first emits a
freeze-preset derogation, a request above 26 is clamped to 26, then
the derogation / mode-temperature / refresh commands are emitted with
the (possibly clamped) value, which also becomes the cached target. -/
def set_temperature (e : TahomaClimate) (temperature? : Option ℚ) :
    Except String (TahomaClimate × List Cmd) :=
  match temperature? with
  | none => .ok (e, [])
  | some temperature =>
    let st :=
      if e.widget = W_ST then
        let c1 : List Cmd :=
          if temperature < 15 then
            [(COMMAND_SET_DEROGATION,
              [Arg.s STATE_PRESET_FREEZE,
               Arg.s STATE_DEROGATION_FURTHER_NOTICE])]
          else []
        let t := if temperature > 26 then 26 else temperature
        ({ e with target_temp := t },
         c1 ++ [(COMMAND_SET_DEROGATION,
                 [Arg.q t, Arg.s STATE_DEROGATION_FURTHER_NOTICE]),
                (COMMAND_SET_MODE_TEMPERATURE,
                 [Arg.s STATE_PRESET_MANUAL, Arg.q t]),
                (COMMAND_REFRESH_STATE, [])])
      else (e, [])
    if st.1.widget = W_AEH then
      let e1 := { st.1 with target_temp := temperature }
      match control_heating e1 with
      | .error msg => .error msg
      | .ok (e2, c2) => .ok (e2, st.2 ++ c2)
    else .ok st

/-- `set_preset_mode` (climate.py lines 450-483).  A preset outside
`preset_modes` is logged and ignored; an unchanged preset returns at
once; otherwise the cached preset is set first and the widget branch
runs (the source uses `if` / `elif` here). -/
def set_preset_mode (e : TahomaClimate) (preset_mode : String) :
    Except String (TahomaClimate × List Cmd) :=
  if preset_mode ∈ e.preset_modes then
    if e.preset_mode = preset_mode then .ok (e, [])
    else
      let e0 := { e with preset_mode := preset_mode }
      if e0.widget = W_ST then
        if preset_mode ∈ [PRESET_FREEZE, PRESET_SLEEP, PRESET_AWAY,
            PRESET_HOME] then
          match dget ST_MAP_PRESET_REVERSE preset_mode with
          | .error msg => .error msg
          | .ok v =>
            .ok ({ e0 with stored_target_temp := e0.target_temp },
              [(COMMAND_SET_DEROGATION,
                [Arg.s v, Arg.s STATE_DEROGATION_FURTHER_NOTICE]),
               (COMMAND_REFRESH_STATE, [])])
        else if preset_mode = PRESET_NONE then
          let e1 := { e0 with target_temp := e0.stored_target_temp }
          .ok (e1,
            [(COMMAND_SET_DEROGATION,
              [Arg.q e1.target_temp,
               Arg.s STATE_DEROGATION_FURTHER_NOTICE]),
             (COMMAND_SET_MODE_TEMPERATURE,
              [Arg.s STATE_PRESET_MANUAL, Arg.q e1.target_temp]),
             (COMMAND_REFRESH_STATE, [])])
        else .ok (e0, [(COMMAND_REFRESH_STATE, [])])
      else if e0.widget = W_AEH then
        match dget AEH_MAP_PRESET_REVERSE preset_mode with
        | .error msg => .error msg
        | .ok v =>
          match control_heating e0 with
          | .error msg => .error msg
          | .ok (e1, c1) =>
            .ok (e1, (COMMAND_SET_HEATING_LEVEL, [Arg.s v]) :: c1)
      else .ok (e0, [])
  else .ok (e, [])

/-! ### Polling update -/

/-- The widget branch of `update` (climate.py lines 261-283): the
thermostat branch derives `hvac_mode` from the derogation-type state
and then picks which target-temperature and heating-mode states to
consult by whether that mode is automatic; the heater branch derives
both fields from its own on-off and heating-level states. -/
def update_modes (e0 : TahomaClimate) (active : ActiveStates) :
    Except String TahomaClimate :=
  if e0.widget = W_ST then
    match dget MAP_HVAC_MODE active.derogationType with
    | .error msg => .error msg
    | .ok hm =>
      match dget MAP_PRESET (if hm = HVAC_MODE_AUTO then active.heatingMode
          else active.derogationHeatingMode) with
      | .error msg => .error msg
      | .ok pm =>
        .ok { e0 with
          hvac_mode := hm
          target_temp :=
            (if hm = HVAC_MODE_AUTO then active.targetTemperature
             else active.derogatedTargetTemperature)
          preset_mode := pm }
  else if e0.widget = W_AEH then
    match dget MAP_HVAC_MODE active.onOff with
    | .error msg => .error msg
    | .ok hm =>
      match dget MAP_PRESET active.targetHeatingLevel with
      | .error msg => .error msg
      | .ok pm => .ok { e0 with hvac_mode := hm, preset_mode := pm }
  else .ok e0

/-- The final `_current_hvac_modes` recomputation of `update`
(climate.py lines 284-291). -/
def update_action (e1 : TahomaClimate) : TahomaClimate :=
  { e1 with current_hvac_modes :=
    if e1.hvac_mode = HVAC_MODE_OFF then CURRENT_HVAC_OFF
    else if e1.current_temperature = 0 ∨
        e1.current_temperature > e1.target_temp then CURRENT_HVAC_IDLE
    else CURRENT_HVAC_HEAT }

/-- `update` (climate.py lines 257-291).  The vendor-state refresh
(`controller.get_states`) is modelled by passing in the device's fresh
`active_states`; `update_temp(None)`, which reads the associated
sensor from the host, by passing in that sensor's state string.  The
cached temperature is refreshed first, then the widget branch, then
the `_current_hvac_modes` recomputation. -/
def update (e : TahomaClimate) (active : ActiveStates) (sensorState : String) :
    Except String TahomaClimate :=
  match update_modes (update_temp e sensorState) active with
  | .error msg => .error msg
  | .ok e1 => .ok (update_action e1)

deriving instance DecidableEq for Except

/-! ### Concrete test entities (used by the witness theorems) -/

/-- A SomfyThermostat entity as `__init__` would build it from a device
in automatic mode with a 21 degree schedule target. -/
def stFixture : TahomaClimate :=
  { widget := W_ST
    temp_sensor_entity_id := some "sensor.living_room_temperature"
    current_temperature := 19
    current_hvac_modes := CURRENT_HVAC_IDLE
    hvac_modes := [HVAC_MODE_AUTO, HVAC_MODE_HEAT]
    hvac_mode := HVAC_MODE_AUTO
    preset_mode := PRESET_NONE
    preset_modes := [PRESET_NONE, PRESET_FREEZE, PRESET_SLEEP,
      PRESET_AWAY, PRESET_HOME]
    target_temp := 21
    stored_target_temp := 21 }

/-- An AtlanticElectricalHeater entity at comfort level, current
temperature 18, target 19. -/
def aehFixture : TahomaClimate :=
  { widget := W_AEH
    temp_sensor_entity_id := some "sensor.bedroom_temperature"
    current_temperature := 18
    current_hvac_modes := CURRENT_HVAC_IDLE
    hvac_modes := [HVAC_MODE_HEAT, HVAC_MODE_OFF]
    hvac_mode := HVAC_MODE_HEAT
    preset_mode := PRESET_COMFORT
    preset_modes := [PRESET_NONE, PRESET_FREEZE, PRESET_ECO,
      PRESET_COMFORT]
    target_temp := 19
    stored_target_temp := 19 }

/-- `aehFixture` with the zero sentinel cached temperature (no valid
sensor reading yet). -/
def aehZeroFixture : TahomaClimate :=
  { aehFixture with current_temperature := 0 }

/-- Fresh vendor states for a SomfyThermostat in automatic (date
derogation) mode, at-home heating mode, schedule target 20. -/
def stActiveFixture : ActiveStates :=
  { derogationType := STATE_DEROGATION_DATE
    heatingMode := STATE_PRESET_AT_HOME
    derogationHeatingMode := STATE_PRESET_MANUAL
    targetTemperature := 20
    derogatedTargetTemperature := 22
    onOff := STATE_ON
    targetHeatingLevel := PRESET_ECO }

/-- The entity `update stFixture stActiveFixture "19.0"` produces. -/
def stUpdatedFixture : TahomaClimate :=
  { stFixture with
    current_temperature := 19
    current_hvac_modes := CURRENT_HVAC_HEAT
    hvac_mode := HVAC_MODE_AUTO
    preset_mode := PRESET_HOME
    target_temp := 20 }

/-! ### Helper lemmas -/

@[simp]
theorem update_temp_widget (e : TahomaClimate) (s : String) :
    (update_temp e s).widget = e.widget := by
  unfold update_temp
  split
  · rfl
  · split
    · rfl
    · split <;> rfl

/-- Inversion of a successful SomfyThermostat `update`: the derived
fields in terms of the fresh active states. -/
theorem update_st_ok (e : TahomaClimate) (active : ActiveStates)
    (s : String) (e' : TahomaClimate)
    (hw : e.widget = W_ST)
    (hu : update e active s = .ok e') :
    ∃ hm pm,
      dget MAP_HVAC_MODE active.derogationType = .ok hm ∧
      dget MAP_PRESET (if hm = HVAC_MODE_AUTO then active.heatingMode
        else active.derogationHeatingMode) = .ok pm ∧
      e'.hvac_mode = hm ∧ e'.preset_mode = pm ∧
      e'.target_temp = (if hm = HVAC_MODE_AUTO then active.targetTemperature
        else active.derogatedTargetTemperature) := by
  unfold update update_modes at hu
  rw [show (update_temp e s).widget = W_ST from by rw [update_temp_widget, hw],
    if_pos rfl] at hu
  rcases h1 : dget MAP_HVAC_MODE active.derogationType with msg | hm <;>
    rw [h1] at hu <;> dsimp only at hu
  · exact absurd hu (by simp)
  rcases h2 : dget MAP_PRESET (if hm = HVAC_MODE_AUTO then active.heatingMode
      else active.derogationHeatingMode) with msg | pm <;>
    rw [h2] at hu <;> dsimp only at hu
  · exact absurd hu (by simp)
  simp only [Except.ok.injEq] at hu
  subst hu
  refine ⟨hm, pm, ?_, ?_, rfl, rfl, rfl⟩ <;> simp [h1, h2]

/-- Entering a named-preset override on the SomfyThermostat stores the
current target temperature and emits the derogation command for the
mapped vendor preset. -/
theorem set_preset_override_stores (e : TahomaClimate) (p v : String)
    (hw : e.widget = W_ST) (hpm : p ∈ e.preset_modes)
    (hne : e.preset_mode ≠ p)
    (hov : p ∈ [PRESET_FREEZE, PRESET_SLEEP, PRESET_AWAY, PRESET_HOME])
    (hv : dget ST_MAP_PRESET_REVERSE p = .ok v) :
    set_preset_mode e p =
      .ok ({ e with
              preset_mode := p
              stored_target_temp := e.target_temp },
        [(COMMAND_SET_DEROGATION,
          [Arg.s v, Arg.s STATE_DEROGATION_FURTHER_NOTICE]),
         (COMMAND_REFRESH_STATE, [])]) := by
  simp only [set_preset_mode, if_pos hpm, if_neg hne, hw, if_pos hov, hv]
  rfl

/-- Returning to PRESET_NONE on the SomfyThermostat restores the stored
target temperature and re-issues it as a manual derogation. -/
theorem set_preset_none_restores (e1 : TahomaClimate)
    (hw : e1.widget = W_ST)
    (hnm : PRESET_NONE ∈ e1.preset_modes)
    (hne : e1.preset_mode ≠ PRESET_NONE) :
    set_preset_mode e1 PRESET_NONE =
      .ok ({ e1 with
              preset_mode := PRESET_NONE
              target_temp := e1.stored_target_temp },
        [(COMMAND_SET_DEROGATION,
          [Arg.q e1.stored_target_temp,
           Arg.s STATE_DEROGATION_FURTHER_NOTICE]),
         (COMMAND_SET_MODE_TEMPERATURE,
          [Arg.s STATE_PRESET_MANUAL, Arg.q e1.stored_target_temp]),
         (COMMAND_REFRESH_STATE, [])]) := by
  simp only [set_preset_mode, if_pos hnm, if_neg hne, hw]
  rfl

/-! ### Claims -/

/-- C1: for the SomfyThermostat widget, a sequence that enters a
named-preset override (storing the target temperature) and then exits
the override by returning to PRESET_NONE leaves target_temperature
equal to the value stored before the override began: the first call
stores the pre-override target, and the composed run ends with
exactly that target. -/
theorem c1_exit_override_restores_target (e : TahomaClimate) (p : String)
    (hw : e.widget = W_ST)
    (hov : p ∈ [PRESET_FREEZE, PRESET_SLEEP, PRESET_AWAY, PRESET_HOME])
    (hpm : p ∈ e.preset_modes)
    (hnm : PRESET_NONE ∈ e.preset_modes)
    (hne : e.preset_mode ≠ p) :
    (set_preset_mode e p).map (fun r => r.1.stored_target_temp) =
      .ok e.target_temp ∧
    ((set_preset_mode e p).bind fun r =>
      (set_preset_mode r.1 PRESET_NONE).map fun r2 => r2.1.target_temp) =
      .ok e.target_temp := by
  have hov' := hov
  simp only [List.mem_cons, List.not_mem_nil, or_false] at hov'
  have hone : p ≠ PRESET_NONE := by
    rcases hov' with h | h | h | h <;> subst h <;> decide
  obtain ⟨v, hv⟩ : ∃ v, dget ST_MAP_PRESET_REVERSE p = .ok v := by
    rcases hov' with h | h | h | h <;> subst h <;> exact ⟨_, rfl⟩
  have h1 := set_preset_override_stores e p v hw hpm hne hov hv
  have h2 := set_preset_none_restores
    { e with preset_mode := p, stored_target_temp := e.target_temp }
    hw hnm hone
  constructor
  · rw [h1]; rfl
  · rw [h1]
    show (set_preset_mode
        { e with preset_mode := p, stored_target_temp := e.target_temp }
        PRESET_NONE).map (fun r2 => r2.1.target_temp) = .ok e.target_temp
    rw [h2]; rfl

/-- Witness for C1: away override then back to none on the thermostat
fixture, whose target is 21 throughout. -/
theorem c1_witness :
    (set_preset_mode stFixture PRESET_AWAY).map
      (fun r => r.1.stored_target_temp) = .ok stFixture.target_temp ∧
    ((set_preset_mode stFixture PRESET_AWAY).bind fun r =>
      (set_preset_mode r.1 PRESET_NONE).map fun r2 => r2.1.target_temp) =
      .ok stFixture.target_temp :=
  c1_exit_override_restores_target stFixture PRESET_AWAY rfl (by decide)
    (by decide) (by decide) (by decide)

/-- C4: for every preset_mode value not contained in the entity's
preset_modes list, set_preset_mode is a no-op: it emits no vendor
command, raises no exception, and leaves every entity field
unchanged. -/
theorem c4_unknown_preset_is_noop (e : TahomaClimate) (p : String)
    (h : p ∉ e.preset_modes) :
    set_preset_mode e p = .ok (e, []) := by
  unfold set_preset_mode
  rw [if_neg h]

/-- Witness for C4: requesting the (unsupported) boost preset on the
thermostat fixture changes nothing and emits nothing. -/
theorem c4_witness :
    set_preset_mode stFixture "boost" = .ok (stFixture, []) :=
  c4_unknown_preset_is_noop stFixture "boost" (by decide)

/-- C7: when parsing the external temperature sensor's state fails (the
string is not a valid float), the read is discarded and the cached
current_temperature keeps its previous value; no exception
propagates (`update_temp` is total and returns the entity unchanged). -/
theorem c7_parse_failure_keeps_cached_temperature (e : TahomaClimate)
    (s : String) (hs : s ≠ STATE_UNKNOWN) (hp : parseFloat s = none) :
    update_temp e s = e := by
  unfold update_temp
  rw [if_neg hs, hp]
  split <;> rfl

/-- Witness for C7: a non-numeric sensor state leaves the thermostat
fixture untouched. -/
theorem c7_witness : update_temp stFixture "not-a-number" = stFixture :=
  c7_parse_failure_keeps_cached_temperature stFixture "not-a-number"
    (by decide) (by decide)

/-- C9: calling set_hvac_mode with the entity's current hvac_mode, or
set_preset_mode with the entity's current preset_mode, returns
immediately: no vendor command is emitted and no entity field
changes. -/
theorem c9_setting_current_mode_is_noop (e : TahomaClimate) :
    set_hvac_mode e e.hvac_mode = .ok (e, []) ∧
    set_preset_mode e e.preset_mode = .ok (e, []) := by
  constructor
  · unfold set_hvac_mode
    rw [if_pos rfl]
  · unfold set_preset_mode
    split
    · rw [if_pos rfl]
    · rfl

/-- C10: when the cached current temperature equals 0 (the sentinel for
no valid sensor reading), the heater hysteresis control is a no-op
for every target temperature. -/
theorem c10_zero_sentinel_heating_noop (e : TahomaClimate)
    (h : e.current_temperature = 0) :
    control_heating e = .ok (e, []) := by
  unfold control_heating
  rw [if_pos h]

/-- Witness for C10: the heater fixture with the zero sentinel and
target 19 (which exceeds the current temperature by well over the
cold tolerance) gets no command. -/
theorem c10_witness :
    control_heating aehZeroFixture = .ok (aehZeroFixture, []) :=
  c10_zero_sentinel_heating_noop aehZeroFixture (by decide)

/-- C3: for the SomfyThermostat widget, temperature writes are clamped
to the high end of the safe range: set_temperature with 30 degrees
issues the set-derogation and set-mode-temperature commands with 26
degrees, and the cached target temperature becomes 26. -/
theorem c3_high_temperature_clamped_to_26 (e : TahomaClimate)
    (hw : e.widget = W_ST) :
    set_temperature e (some 30) = .ok ({ e with target_temp := 26 },
      [(COMMAND_SET_DEROGATION,
        [Arg.q 26, Arg.s STATE_DEROGATION_FURTHER_NOTICE]),
       (COMMAND_SET_MODE_TEMPERATURE,
        [Arg.s STATE_PRESET_MANUAL, Arg.q 26]),
       (COMMAND_REFRESH_STATE, [])]) := by
  simp only [set_temperature, hw, if_pos rfl]
  norm_num
  exact fun h => absurd h (by decide)

/-- Witness for C3 at the thermostat fixture. -/
theorem c3_witness :
    set_temperature stFixture (some 30) =
      .ok ({ stFixture with target_temp := 26 },
        [(COMMAND_SET_DEROGATION,
          [Arg.q 26, Arg.s STATE_DEROGATION_FURTHER_NOTICE]),
         (COMMAND_SET_MODE_TEMPERATURE,
          [Arg.s STATE_PRESET_MANUAL, Arg.q 26]),
         (COMMAND_REFRESH_STATE, [])]) :=
  c3_high_temperature_clamped_to_26 stFixture rfl

/-- C6: for the SomfyThermostat widget, set_temperature with a request
below 15 degrees additionally issues a frost-protection override
(set-derogation with the freeze preset) before the ordinary
temperature commands. -/
theorem c6_low_temperature_frost_protection (e : TahomaClimate) (t : ℚ)
    (hw : e.widget = W_ST) (ht : t < 15) :
    set_temperature e (some t) = .ok ({ e with target_temp := t },
      [(COMMAND_SET_DEROGATION,
        [Arg.s STATE_PRESET_FREEZE, Arg.s STATE_DEROGATION_FURTHER_NOTICE]),
       (COMMAND_SET_DEROGATION,
        [Arg.q t, Arg.s STATE_DEROGATION_FURTHER_NOTICE]),
       (COMMAND_SET_MODE_TEMPERATURE,
        [Arg.s STATE_PRESET_MANUAL, Arg.q t]),
       (COMMAND_REFRESH_STATE, [])]) := by
  have h26 : ¬(t > 26) := by linarith
  simp only [set_temperature, hw, if_pos rfl, if_pos ht, if_neg h26]
  norm_num
  exact fun h => absurd h (by decide)

/-- Witness for C6: requesting 12 degrees at the thermostat fixture. -/
theorem c6_witness :
    set_temperature stFixture (some 12) =
      .ok ({ stFixture with target_temp := 12 },
        [(COMMAND_SET_DEROGATION,
          [Arg.s STATE_PRESET_FREEZE, Arg.s STATE_DEROGATION_FURTHER_NOTICE]),
         (COMMAND_SET_DEROGATION,
          [Arg.q 12, Arg.s STATE_DEROGATION_FURTHER_NOTICE]),
         (COMMAND_SET_MODE_TEMPERATURE,
          [Arg.s STATE_PRESET_MANUAL, Arg.q 12]),
         (COMMAND_REFRESH_STATE, [])]) :=
  c6_low_temperature_frost_protection stFixture 12 rfl (by norm_num)

/-- C5: every derogation-type state value the mapping table defines is
mapped to exactly one of HVAC_MODE_AUTO or HVAC_MODE_HEAT, and after
every (successful) update of a SomfyThermostat entity whose
derogation-type state is one of those values, the derived hvac_mode
is one of HVAC_MODE_AUTO or HVAC_MODE_HEAT. -/
theorem c5_derogation_type_maps_into_fixed_set (e : TahomaClimate)
    (active : ActiveStates) (s : String) (e' : TahomaClimate)
    (hw : e.widget = W_ST)
    (hd : active.derogationType ∈ [STATE_DEROGATION_DATE,
      STATE_DEROGATION_NEXT_MODE, STATE_DEROGATION_FURTHER_NOTICE])
    (hu : update e active s = .ok e') :
    (dget MAP_HVAC_MODE active.derogationType = .ok HVAC_MODE_AUTO ∨
     dget MAP_HVAC_MODE active.derogationType = .ok HVAC_MODE_HEAT) ∧
    (e'.hvac_mode = HVAC_MODE_AUTO ∨ e'.hvac_mode = HVAC_MODE_HEAT) := by
  obtain ⟨hm, pm, h1, h2, h3, h4, h5⟩ := update_st_ok e active s e' hw hu
  have hmap : dget MAP_HVAC_MODE active.derogationType = .ok HVAC_MODE_AUTO ∨
      dget MAP_HVAC_MODE active.derogationType = .ok HVAC_MODE_HEAT := by
    simp only [List.mem_cons, List.not_mem_nil, or_false] at hd
    rcases hd with h | h | h <;> rw [h]
    · left; rfl
    · right; rfl
    · right; rfl
  refine ⟨hmap, ?_⟩
  rcases hmap with h | h
  · left
    injection h1.symm.trans h with hmEq
    rw [h3, hmEq]
  · right
    injection h1.symm.trans h with hmEq
    rw [h3, hmEq]

/-- Witness for C5: updating the thermostat fixture with a date
derogation type lands in the fixed set. -/
theorem c5_witness :
    (dget MAP_HVAC_MODE stActiveFixture.derogationType =
        .ok HVAC_MODE_AUTO ∨
     dget MAP_HVAC_MODE stActiveFixture.derogationType =
        .ok HVAC_MODE_HEAT) ∧
    (stUpdatedFixture.hvac_mode = HVAC_MODE_AUTO ∨
     stUpdatedFixture.hvac_mode = HVAC_MODE_HEAT) :=
  c5_derogation_type_maps_into_fixed_set stFixture stActiveFixture "19.0"
    stUpdatedFixture rfl (by decide) (by decide)

/-- C8: on every successful read/update of a SomfyThermostat entity the
vendor state fields consulted for preset_mode and target_temperature
are selected by the derived mode: when the mapped derogation-type
state gives the automatic mode, the heating-mode and
core-target-temperature states are used; otherwise the
derogation-heating-mode and derogated-target-temperature states are
used. -/
theorem c8_mode_selects_consulted_states (e : TahomaClimate)
    (active : ActiveStates) (s : String) (e' : TahomaClimate)
    (hw : e.widget = W_ST)
    (hu : update e active s = .ok e') :
    (dget MAP_HVAC_MODE active.derogationType = .ok HVAC_MODE_AUTO →
       e'.target_temp = active.targetTemperature ∧
       dget MAP_PRESET active.heatingMode = .ok e'.preset_mode) ∧
    (∀ m, dget MAP_HVAC_MODE active.derogationType = .ok m →
       m ≠ HVAC_MODE_AUTO →
       e'.target_temp = active.derogatedTargetTemperature ∧
       dget MAP_PRESET active.derogationHeatingMode = .ok e'.preset_mode) := by
  obtain ⟨hm, pm, h1, h2, h3, h4, h5⟩ := update_st_ok e active s e' hw hu
  constructor
  · intro hA
    injection h1.symm.trans hA with hmEq
    subst hmEq
    rw [if_pos rfl] at h2 h5
    exact ⟨h5, by rw [h4]; exact h2⟩
  · intro m hm1 hne
    injection h1.symm.trans hm1 with hmEq
    subst hmEq
    rw [if_neg hne] at h2 h5
    exact ⟨h5, by rw [h4]; exact h2⟩

/-- Witness for C8: at the fixture update (automatic mode) the
schedule target-temperature and heating-mode states are the ones
consulted. -/
theorem c8_witness :
    stUpdatedFixture.target_temp = stActiveFixture.targetTemperature ∧
    dget MAP_PRESET stActiveFixture.heatingMode =
      .ok stUpdatedFixture.preset_mode :=
  (c8_mode_selects_consulted_states stFixture stActiveFixture "19.0"
    stUpdatedFixture rfl (by decide)).1 (by decide)

/-- C2 counterexample: the claim quantifies over every current and
target temperature, but at the zero sentinel current temperature
(here with target 19, so target − current = 19 ≥ cold_tolerance) the
hysteresis control emits no command at all instead of turning the
heater on. -/
theorem c2_counterexample :
    aehZeroFixture.widget = W_AEH ∧
    aehZeroFixture.target_temp - aehZeroFixture.current_temperature ≥
      cold_tolerance ∧
    control_heating aehZeroFixture = .ok (aehZeroFixture, []) :=
  ⟨rfl, by norm_num [aehZeroFixture, aehFixture, cold_tolerance], rfl⟩

/-- C2 (amended): for the AtlanticElectricalHeater widget, when the
cached current temperature is nonzero (a valid reading) and the
preset is one of the AEH presets, the hysteresis control turns the
heater off when current − target ≥ hot_tolerance (emitting the
off heating level unless the preset is already none), turns it on
when target − current ≥ cold_tolerance (emitting a non-off heating
level), and issues no change when |current − target| is within the
tolerance band. -/
theorem c2_heater_hysteresis (e : TahomaClimate)
    (hw : e.widget = W_AEH)
    (hc : e.current_temperature ≠ 0)
    (hp : e.preset_mode ∈ [PRESET_NONE, PRESET_FREEZE, PRESET_ECO,
      PRESET_COMFORT]) :
    (e.current_temperature - e.target_temp ≥ hot_tolerance →
      control_heating e = .ok (e,
        if e.preset_mode = PRESET_NONE then []
        else [(COMMAND_SET_HEATING_LEVEL, [Arg.s PRESET_OFF])])) ∧
    (e.target_temp - e.current_temperature ≥ cold_tolerance →
      control_heating e = .ok
        ((if e.preset_mode = PRESET_NONE
          then { e with preset_mode := PRESET_COMFORT } else e),
         [(COMMAND_SET_HEATING_LEVEL,
           [Arg.s (if e.preset_mode = PRESET_FREEZE then
               PRESET_FROST_PROTECTION
             else if e.preset_mode = PRESET_ECO then PRESET_ECO
             else PRESET_COMFORT)])]) ∧
      (if e.preset_mode = PRESET_FREEZE then PRESET_FROST_PROTECTION
       else if e.preset_mode = PRESET_ECO then PRESET_ECO
       else PRESET_COMFORT) ≠ PRESET_OFF) ∧
    (e.current_temperature - e.target_temp < hot_tolerance →
     e.target_temp - e.current_temperature < cold_tolerance →
      control_heating e = .ok (e, [])) := by
  obtain ⟨w, ts, ct, chm, hms, hm, pm, pms, tt, st⟩ := e
  dsimp only at hw hc hp ⊢
  subst hw
  simp only [List.mem_cons, List.not_mem_nil, or_false] at hp
  refine ⟨?_, ?_, ?_⟩
  · intro hhot
    have hnc : ¬(tt - ct ≥ cold_tolerance) := by
      simp only [cold_tolerance, hot_tolerance] at *
      intro hcon
      linarith
    simp only [control_heating, if_neg hc, if_pos hhot, if_neg hnc]
    rcases hp with h | h | h | h <;> subst h <;> rfl
  · intro hcold
    have hnh : ¬(ct - tt ≥ hot_tolerance) := by
      simp only [cold_tolerance, hot_tolerance] at *
      intro hcon
      linarith
    simp only [control_heating, if_neg hc, if_neg hnh, if_pos hcold]
    rcases hp with h | h | h | h <;> subst h <;> exact ⟨rfl, by decide⟩
  · intro h1 h2
    have hnh : ¬(ct - tt ≥ hot_tolerance) := not_le.mpr h1
    have hnc : ¬(tt - ct ≥ cold_tolerance) := not_le.mpr h2
    simp only [control_heating, if_neg hc, if_neg hnh, if_neg hnc]
    rfl

/-- Witness for C2 (amended): the heater fixture (current 18, target
19, comfort preset) is commanded back on at the comfort level. -/
theorem c2_witness :
    control_heating aehFixture = .ok
      ((if aehFixture.preset_mode = PRESET_NONE
        then { aehFixture with preset_mode := PRESET_COMFORT }
        else aehFixture),
       [(COMMAND_SET_HEATING_LEVEL,
         [Arg.s (if aehFixture.preset_mode = PRESET_FREEZE then
             PRESET_FROST_PROTECTION
           else if aehFixture.preset_mode = PRESET_ECO then PRESET_ECO
           else PRESET_COMFORT)])]) ∧
    (if aehFixture.preset_mode = PRESET_FREEZE then PRESET_FROST_PROTECTION
     else if aehFixture.preset_mode = PRESET_ECO then PRESET_ECO
     else PRESET_COMFORT) ≠ PRESET_OFF :=
  (c2_heater_hysteresis aehFixture rfl (by decide) (by decide)).2.1
    (by norm_num [aehFixture, cold_tolerance])

end Tahoma
